import Mathlib

/-!
Verification of the ARVOS SDK message envelope codec and dispatch core.

Shallow embedding of the Python source:
* `src/examples/ble_receiver.py` — `BLEBuffer` (Frame Reassembler);
* `src/python/arvos/servers/base_server.py` — `BaseArvosServer` state,
  `reset_statistics`, `_invoke_callback`;
* `src/python/arvos/servers/http_server.py` — the unary HTTP adapter;
* `src/python/arvos/servers/mcap_server.py` — the WebSocket adapter's
  per-client loop `_handle_client`;
* `src/python/arvos/servers/mqtt_server.py` — `_on_message`;
* `src/python/arvos/servers/grpc_server.py` — `_protobuf_to_dict`.

Bytes are modelled as `Nat` (values `< 256` where a claim needs it),
byte strings as `List Nat`.  Python exceptions are modelled with
`Except` / an explicit exception value; fallible steps return the
exception instead of raising.
-/

namespace Arvos

/-! ## Frame Reassembler (`src/examples/ble_receiver.py`, `BLEBuffer`) -/

/-- `int.from_bytes(b[:4], "little")` for the 4 header bytes. -/
def intFromBytesLE4 (b0 b1 b2 b3 : Nat) : Nat :=
  b0 + 256 * b1 + 65536 * b2 + 16777216 * b3

/-- The 4-byte little-endian encoding of a length `n` (the wire contract's
frame header; faithful inverse of `intFromBytesLE4` for `n < 2^32`). -/
def lengthHeader (n : Nat) : List Nat :=
  [n % 256, n / 256 % 256, n / 65536 % 256, n / 16777216 % 256]

/-- The `while` loop of `BLEBuffer.feed`: repeatedly take a 4-byte
little-endian length header and that many payload bytes off the front of
the buffer; stop (retaining the remainder) as soon as fewer than
`4 + length` bytes are available. -/
def extractFrames : List Nat → List (List Nat) × List Nat
  | b0 :: b1 :: b2 :: b3 :: rest =>
    if rest.length < intFromBytesLE4 b0 b1 b2 b3 then
      ([], b0 :: b1 :: b2 :: b3 :: rest)
    else
      let r := extractFrames (rest.drop (intFromBytesLE4 b0 b1 b2 b3))
      (rest.take (intFromBytesLE4 b0 b1 b2 b3) :: r.1, r.2)
  | buf => ([], buf)
termination_by buf => buf.length
decreasing_by
  simp only [List.length_drop, List.length_cons]
  omega

/-- The reassembler's state: `self.buffer`. -/
structure BLEBuffer where
  buffer : List Nat
deriving DecidableEq, Repr

/-- `BLEBuffer.feed`: append the chunk to the internal buffer, then run the
extraction loop; returns the completed payloads and the new state. -/
def BLEBuffer.feed (s : BLEBuffer) (chunk : List Nat) : List (List Nat) × BLEBuffer :=
  let r := extractFrames (s.buffer ++ chunk)
  (r.1, ⟨r.2⟩)

/-- One frame on the wire: 4-byte little-endian length header, then the
payload (spec §4.1 wire contract, matched by the `feed` loop). -/
def encodeFrame (p : List Nat) : List Nat :=
  lengthHeader p.length ++ p

/-- Concatenation of the framed encodings of a list of payloads. -/
def encodeFrames : List (List Nat) → List Nat
  | [] => []
  | p :: ps => encodeFrame p ++ encodeFrames ps

/-- Concatenation of a list of chunks (a partition of the byte stream). -/
def concatChunks : List (List Nat) → List Nat
  | [] => []
  | c :: cs => c ++ concatChunks cs

/-- Feed a sequence of chunks to the reassembler, collecting all payloads
produced, in order. -/
def feedAll (s : BLEBuffer) : List (List Nat) → List (List Nat) × BLEBuffer
  | [] => ([], s)
  | c :: cs =>
    let r := s.feed c
    let rs := feedAll r.2 cs
    (r.1 ++ rs.1, rs.2)

theorem intFromBytesLE4_lengthHeader (n : Nat) (h : n < 4294967296) :
    intFromBytesLE4 (n % 256) (n / 256 % 256) (n / 65536 % 256) (n / 16777216 % 256) = n := by
  unfold intFromBytesLE4
  omega

theorem extractFrames_short (buf : List Nat) (h : buf.length < 4) :
    extractFrames buf = ([], buf) := by
  match buf with
  | [] => rw [extractFrames]; simp
  | [_] => rw [extractFrames]; simp
  | [_, _] => rw [extractFrames]; simp
  | [_, _, _] => rw [extractFrames]; simp
  | _ :: _ :: _ :: _ :: _ => simp only [List.length_cons] at h; omega

theorem extractFrames_cons4 (b0 b1 b2 b3 : Nat) (rest : List Nat) :
    extractFrames (b0 :: b1 :: b2 :: b3 :: rest) =
      if rest.length < intFromBytesLE4 b0 b1 b2 b3 then
        ([], b0 :: b1 :: b2 :: b3 :: rest)
      else
        ((rest.take (intFromBytesLE4 b0 b1 b2 b3)) ::
            (extractFrames (rest.drop (intFromBytesLE4 b0 b1 b2 b3))).1,
          (extractFrames (rest.drop (intFromBytesLE4 b0 b1 b2 b3))).2) := by
  rw [extractFrames]

/-- Extraction over a fully framed stream recovers exactly the payloads. -/
theorem extractFrames_encodeFrames (ps : List (List Nat))
    (h : ∀ p ∈ ps, p.length < 4294967296) :
    extractFrames (encodeFrames ps) = (ps, []) := by
  induction ps with
  | nil => exact extractFrames_short [] (by simp)
  | cons p ps ih =>
    have hp : p.length < 4294967296 := h p (List.mem_cons_self p ps)
    have hps : ∀ q ∈ ps, q.length < 4294967296 := fun q hq => h q (List.mem_cons_of_mem p hq)
    have hdec := intFromBytesLE4_lengthHeader p.length hp
    simp only [encodeFrames, encodeFrame, lengthHeader, List.cons_append, List.nil_append]
    rw [extractFrames_cons4, hdec]
    have hlen : ¬ (p ++ encodeFrames ps).length < p.length := by
      simp [List.length_append]
    rw [if_neg hlen, List.take_left, List.drop_left, ih hps]

theorem extractFrames_append_aux (n : Nat) : ∀ (b c : List Nat), b.length ≤ n →
    extractFrames (b ++ c) =
      ((extractFrames b).1 ++ (extractFrames ((extractFrames b).2 ++ c)).1,
        (extractFrames ((extractFrames b).2 ++ c)).2) := by
  induction n with
  | zero =>
    intro b c hb
    have hbnil : b = [] := List.length_eq_zero.mp (Nat.le_zero.mp hb)
    subst hbnil
    rw [extractFrames_short [] (by simp)]
    simp
  | succ n ih =>
    intro b c hb
    match b with
    | [] => rw [extractFrames_short [] (by simp)]; simp
    | [a0] => rw [extractFrames_short [a0] (by simp)]; simp
    | [a0, a1] => rw [extractFrames_short [a0, a1] (by simp)]; simp
    | [a0, a1, a2] => rw [extractFrames_short [a0, a1, a2] (by simp)]; simp
    | b0 :: b1 :: b2 :: b3 :: rest =>
        by_cases hlt : rest.length < intFromBytesLE4 b0 b1 b2 b3
        · rw [extractFrames_cons4 b0 b1 b2 b3 rest, if_pos hlt]
          simp
        · have hle : intFromBytesLE4 b0 b1 b2 b3 ≤ rest.length := Nat.le_of_not_lt hlt
          have hcons : (b0 :: b1 :: b2 :: b3 :: rest) ++ c
              = b0 :: b1 :: b2 :: b3 :: (rest ++ c) := by simp
          have hlt2 : ¬ (rest ++ c).length < intFromBytesLE4 b0 b1 b2 b3 := by
            simp only [List.length_append]
            omega
          rw [hcons, extractFrames_cons4 b0 b1 b2 b3 (rest ++ c), if_neg hlt2,
            List.take_append_of_le_length hle, List.drop_append_of_le_length hle,
            extractFrames_cons4 b0 b1 b2 b3 rest, if_neg hlt]
          have hrec : (rest.drop (intFromBytesLE4 b0 b1 b2 b3)).length ≤ n := by
            simp only [List.length_cons] at hb
            simp only [List.length_drop]
            omega
          rw [ih (rest.drop (intFromBytesLE4 b0 b1 b2 b3)) c hrec]
          simp

/-- Splitting one feed into two: extraction commutes with appending more
bytes, with the leftover of the first pass re-fed in front. -/
theorem extractFrames_append (b c : List Nat) :
    extractFrames (b ++ c) =
      ((extractFrames b).1 ++ (extractFrames ((extractFrames b).2 ++ c)).1,
        (extractFrames ((extractFrames b).2 ++ c)).2) :=
  extractFrames_append_aux b.length b c le_rfl

theorem extractFrames_leftover_aux (n : Nat) : ∀ (buf : List Nat), buf.length ≤ n →
    extractFrames (extractFrames buf).2 = ([], (extractFrames buf).2) := by
  induction n with
  | zero =>
    intro buf hb
    have hbnil : buf = [] := List.length_eq_zero.mp (Nat.le_zero.mp hb)
    subst hbnil
    rw [extractFrames_short [] (by simp)]
    exact extractFrames_short [] (by simp)
  | succ n ih =>
    intro buf hb
    match buf with
    | [] => rw [extractFrames_short [] (by simp)]; exact extractFrames_short [] (by simp)
    | [a0] => rw [extractFrames_short [a0] (by simp)]; exact extractFrames_short [a0] (by simp)
    | [a0, a1] =>
        rw [extractFrames_short [a0, a1] (by simp)]
        exact extractFrames_short [a0, a1] (by simp)
    | [a0, a1, a2] =>
        rw [extractFrames_short [a0, a1, a2] (by simp)]
        exact extractFrames_short [a0, a1, a2] (by simp)
    | b0 :: b1 :: b2 :: b3 :: rest =>
        by_cases hlt : rest.length < intFromBytesLE4 b0 b1 b2 b3
        · rw [extractFrames_cons4 b0 b1 b2 b3 rest, if_pos hlt]
          rw [extractFrames_cons4 b0 b1 b2 b3 rest, if_pos hlt]
        · rw [extractFrames_cons4 b0 b1 b2 b3 rest, if_neg hlt]
          have hrec : (rest.drop (intFromBytesLE4 b0 b1 b2 b3)).length ≤ n := by
            simp only [List.length_cons] at hb
            simp only [List.length_drop]
            omega
          exact ih (rest.drop (intFromBytesLE4 b0 b1 b2 b3)) hrec

/-- The leftover retained by the extraction loop never itself contains a
complete frame: re-running extraction on it yields nothing. -/
theorem extractFrames_leftover (buf : List Nat) :
    extractFrames (extractFrames buf).2 = ([], (extractFrames buf).2) :=
  extractFrames_leftover_aux buf.length buf le_rfl

/-- Feeding chunk-by-chunk equals one extraction pass over the whole
stream, provided the starting buffer holds no complete frame. -/
theorem feedAll_eq (s : BLEBuffer) (cs : List (List Nat))
    (hs : extractFrames s.buffer = ([], s.buffer)) :
    feedAll s cs = ((extractFrames (s.buffer ++ concatChunks cs)).1,
      ⟨(extractFrames (s.buffer ++ concatChunks cs)).2⟩) := by
  induction cs generalizing s with
  | nil =>
    simp only [feedAll, concatChunks, List.append_nil, hs]
  | cons c cs ih =>
    have hfeed : s.feed c = ((extractFrames (s.buffer ++ c)).1,
        ⟨(extractFrames (s.buffer ++ c)).2⟩) := rfl
    have hnext : extractFrames ((⟨(extractFrames (s.buffer ++ c)).2⟩ : BLEBuffer)).buffer
        = ([], (⟨(extractFrames (s.buffer ++ c)).2⟩ : BLEBuffer).buffer) :=
      extractFrames_leftover (s.buffer ++ c)
    simp only [feedAll, hfeed, ih _ hnext, concatChunks]
    rw [← List.append_assoc, extractFrames_append (s.buffer ++ c) (concatChunks cs)]

theorem lengthHeader_intFromBytesLE4 (b0 b1 b2 b3 : Nat)
    (h0 : b0 < 256) (h1 : b1 < 256) (h2 : b2 < 256) (h3 : b3 < 256) :
    lengthHeader (intFromBytesLE4 b0 b1 b2 b3) = [b0, b1, b2, b3] := by
  simp only [lengthHeader, intFromBytesLE4, List.cons.injEq, and_true]
  refine ⟨?_, ?_, ?_, ?_⟩ <;> omega

theorem extractFrames_reconstruct_aux (n : Nat) : ∀ (buf : List Nat), buf.length ≤ n →
    (∀ x ∈ buf, x < 256) →
    encodeFrames (extractFrames buf).1 ++ (extractFrames buf).2 = buf := by
  induction n with
  | zero =>
    intro buf hb _
    have hbnil : buf = [] := List.length_eq_zero.mp (Nat.le_zero.mp hb)
    subst hbnil
    rw [extractFrames_short [] (by simp)]
    rfl
  | succ n ih =>
    intro buf hb hbytes
    match buf with
    | [] => rw [extractFrames_short [] (by simp)]; rfl
    | [a0] => rw [extractFrames_short [a0] (by simp)]; rfl
    | [a0, a1] => rw [extractFrames_short [a0, a1] (by simp)]; rfl
    | [a0, a1, a2] => rw [extractFrames_short [a0, a1, a2] (by simp)]; rfl
    | b0 :: b1 :: b2 :: b3 :: rest =>
      by_cases hlt : rest.length < intFromBytesLE4 b0 b1 b2 b3
      · rw [extractFrames_cons4 b0 b1 b2 b3 rest, if_pos hlt]
        rfl
      · have hle : intFromBytesLE4 b0 b1 b2 b3 ≤ rest.length := Nat.le_of_not_lt hlt
        rw [extractFrames_cons4 b0 b1 b2 b3 rest, if_neg hlt]
        have hrec : (rest.drop (intFromBytesLE4 b0 b1 b2 b3)).length ≤ n := by
          simp only [List.length_cons] at hb
          simp only [List.length_drop]
          omega
        have hbrec : ∀ x ∈ rest.drop (intFromBytesLE4 b0 b1 b2 b3), x < 256 := fun x hx =>
          hbytes x (by
            have : x ∈ rest := List.drop_subset _ rest hx
            simp [this])
        have hihre := ih (rest.drop (intFromBytesLE4 b0 b1 b2 b3)) hrec hbrec
        have htake : (rest.take (intFromBytesLE4 b0 b1 b2 b3)).length
            = intFromBytesLE4 b0 b1 b2 b3 := by
          simp [List.length_take, Nat.min_eq_left hle]
        simp only [encodeFrames, encodeFrame, htake]
        rw [lengthHeader_intFromBytesLE4 b0 b1 b2 b3
          (hbytes b0 (by simp)) (hbytes b1 (by simp)) (hbytes b2 (by simp)) (hbytes b3 (by simp))]
        simp only [List.cons_append, List.nil_append, List.append_assoc, hihre,
          List.take_append_drop]

/-- The extraction loop loses no bytes: the frames it produced, re-framed,
followed by the retained leftover, reproduce the whole input buffer. -/
theorem extractFrames_reconstruct (buf : List Nat) (hbytes : ∀ x ∈ buf, x < 256) :
    encodeFrames (extractFrames buf).1 ++ (extractFrames buf).2 = buf :=
  extractFrames_reconstruct_aux buf.length buf le_rfl hbytes

/-- C1: for every sequence of length-prefixed frames concatenated and fed
to `BLEBuffer.feed` split at every possible byte boundary (any partition
into chunks, empty chunks included), the reassembler produces exactly the
original payloads, in order, byte-identical, with nothing left over. -/
theorem frameReassembler_reassembles_all_splits
    (ps : List (List Nat)) (cs : List (List Nat))
    (hlen : ∀ p ∈ ps, p.length < 4294967296)
    (hsplit : concatChunks cs = encodeFrames ps) :
    feedAll ⟨[]⟩ cs = (ps, ⟨[]⟩) := by
  rw [feedAll_eq ⟨[]⟩ cs (extractFrames_short [] (by simp))]
  simp only [List.nil_append, hsplit, extractFrames_encodeFrames ps hlen]

/-- Witness for C1: the stream for payloads `[7,8]`, `[]`, `[9]` cut into
nine chunks (splits mid-header, empty chunks) feeds back exactly those
three payloads. -/
theorem frameReassembler_reassembles_all_splits_witness :
    feedAll ⟨[]⟩ [[], [2], [0, 0], [0, 7], [8, 0, 0], [0], [0, 1, 0], [0, 0, 9], []]
      = ([[7, 8], [], [9]], ⟨[]⟩) :=
  frameReassembler_reassembles_all_splits [[7, 8], [], [9]]
    [[], [2], [0, 0], [0, 7], [8, 0, 0], [0], [0, 1, 0], [0, 0, 9], []]
    (by decide) (by decide)

/-- C5 (amended): `feed` returns normally on every input — in particular on
input ending in a partial header or partial payload, whose bytes it retains
verbatim for the next call (the input splits as the produced frames
followed by the retained leftover, and the leftover holds no complete
frame).  The source configures no maximum length and has no raise or
error-report path at all. -/
theorem feed_never_raises_and_retains (s : BLEBuffer) (chunk : List Nat)
    (hbytes : ∀ x ∈ s.buffer ++ chunk, x < 256) :
    encodeFrames (s.feed chunk).1 ++ (s.feed chunk).2.buffer = s.buffer ++ chunk
      ∧ extractFrames (s.feed chunk).2.buffer = ([], (s.feed chunk).2.buffer) :=
  ⟨extractFrames_reconstruct (s.buffer ++ chunk) hbytes,
    extractFrames_leftover (s.buffer ++ chunk)⟩

/-- Witness for C5: a buffered partial header joined by a chunk ending in a
fresh partial header — one payload out, two bytes retained. -/
theorem feed_never_raises_and_retains_witness :
    encodeFrames ((BLEBuffer.mk [2, 0]).feed [0, 0, 7, 8, 1, 0]).1
        ++ ((BLEBuffer.mk [2, 0]).feed [0, 0, 7, 8, 1, 0]).2.buffer
      = [2, 0] ++ [0, 0, 7, 8, 1, 0]
    ∧ extractFrames ((BLEBuffer.mk [2, 0]).feed [0, 0, 7, 8, 1, 0]).2.buffer
      = ([], ((BLEBuffer.mk [2, 0]).feed [0, 0, 7, 8, 1, 0]).2.buffer) :=
  feed_never_raises_and_retains ⟨[2, 0]⟩ [0, 0, 7, 8, 1, 0] (by decide)

/-- Counterexample for C5 as stated: a header declaring length 4294967295 —
exceeding any configured maximum (e.g. 16 MiB) — makes `feed` return
normally (no payloads, bytes retained); the source raises or reports
nothing, so "raises iff the declared length exceeds a configured maximum"
fails. -/
theorem feed_oversized_header_no_error :
    BLEBuffer.feed ⟨[]⟩ [255, 255, 255, 255] = ([], ⟨[255, 255, 255, 255]⟩)
      ∧ intFromBytesLE4 255 255 255 255 = 4294967295
      ∧ 16777216 < intFromBytesLE4 255 255 255 255 := by
  refine ⟨?_, by decide, by decide⟩
  simp only [BLEBuffer.feed, List.nil_append, extractFrames_cons4]
  rw [if_pos (by decide)]

/-! ## Session tracker / dispatch state
(`src/python/arvos/servers/base_server.py`, `BaseArvosServer`) -/

/-- A user-registered callback, modelled by what its invocation does:
return normally, or raise with a message. -/
inductive CallbackResult
  | ok
  | raises (msg : String)
deriving DecidableEq, Repr

/-- Observable events of the adapters' dispatch paths.  `connect` /
`disconnect` mark the invocation of the connect / disconnect callback;
`callbackInvoked` marks a callback body entered by `_invoke_callback`,
`callbackLogged` its `print` on a caught exception; `sensorDispatched`
marks a decoded sensor record handed to its kind handler;
`errorDispatched` marks an adapter routing a caught exception to the
`on_error` slot. -/
inductive SrvEvent
  | connect
  | disconnect
  | callbackInvoked
  | callbackLogged (msg : String)
  | sensorDispatched
  | errorDispatched
deriving DecidableEq, Repr

/-- Python exceptions that the modelled paths can raise. -/
inductive PyExc
  | jsonDecodeError
  | unicodeDecodeError
  | attributeError (name : String)
deriving DecidableEq, Repr

/-- The state assigned by `BaseArvosServer.__init__`: bind address,
statistics, and one optional callback slot per record kind. -/
structure BaseArvosServer where
  host : String
  port : Nat
  running : Bool
  bytes_received : Nat
  messages_received : Nat
  connected_clients : Nat
  on_connect : Option CallbackResult
  on_disconnect : Option CallbackResult
  on_message : Option CallbackResult
  on_handshake : Option CallbackResult
  on_imu : Option CallbackResult
  on_gps : Option CallbackResult
  on_pose : Option CallbackResult
  on_camera : Option CallbackResult
  on_depth : Option CallbackResult
  on_status : Option CallbackResult
  on_error : Option CallbackResult
  on_watch_imu : Option CallbackResult
  on_watch_attitude : Option CallbackResult
  on_watch_activity : Option CallbackResult
deriving DecidableEq, Repr

/-- `BaseArvosServer.__init__`: counters zero, not running, every callback
slot `None`. -/
def BaseArvosServer.init (host : String) (port : Nat) : BaseArvosServer where
  host := host
  port := port
  running := false
  bytes_received := 0
  messages_received := 0
  connected_clients := 0
  on_connect := none
  on_disconnect := none
  on_message := none
  on_handshake := none
  on_imu := none
  on_gps := none
  on_pose := none
  on_camera := none
  on_depth := none
  on_status := none
  on_error := none
  on_watch_imu := none
  on_watch_attitude := none
  on_watch_activity := none

/-- `BaseArvosServer.reset_statistics`: zero the two counters. -/
def BaseArvosServer.reset_statistics (s : BaseArvosServer) : BaseArvosServer :=
  { s with bytes_received := 0, messages_received := 0 }

/-- Invoking a user callback: its body either returns or raises. -/
def runCallback : CallbackResult → Except String Unit
  | .ok => .ok ()
  | .raises e => .error e

/-- `BaseArvosServer._invoke_callback`: skip a `None` slot; invoke the
callback inside `try`; on an exception, `print` it and return normally. -/
def invokeCallback (cb : Option CallbackResult) : Except String (List SrvEvent) :=
  match cb with
  | none => .ok []
  | some c =>
    match runCallback c with
    | .ok () => .ok [.callbackInvoked]
    | .error e => .ok [.callbackInvoked, .callbackLogged e]

/-- The events of `_invoke_callback` (it never propagates, so the error
branch of the `Except` is unreachable). -/
def invokeCallbackEvents (cb : Option CallbackResult) : List SrvEvent :=
  match invokeCallback cb with
  | .ok evs => evs
  | .error _ => []

/-- C10: `reset_statistics` zeroes `messages_received` and
`bytes_received` and leaves every other field of the server state
unchanged. -/
theorem reset_statistics_zeroes_counters_only (s : BaseArvosServer) :
    (s.reset_statistics).bytes_received = 0
      ∧ (s.reset_statistics).messages_received = 0
      ∧ (s.reset_statistics).connected_clients = s.connected_clients
      ∧ (s.reset_statistics).running = s.running
      ∧ (s.reset_statistics).host = s.host
      ∧ (s.reset_statistics).port = s.port
      ∧ (s.reset_statistics).on_connect = s.on_connect
      ∧ (s.reset_statistics).on_disconnect = s.on_disconnect
      ∧ (s.reset_statistics).on_message = s.on_message
      ∧ (s.reset_statistics).on_handshake = s.on_handshake
      ∧ (s.reset_statistics).on_imu = s.on_imu
      ∧ (s.reset_statistics).on_gps = s.on_gps
      ∧ (s.reset_statistics).on_pose = s.on_pose
      ∧ (s.reset_statistics).on_camera = s.on_camera
      ∧ (s.reset_statistics).on_depth = s.on_depth
      ∧ (s.reset_statistics).on_status = s.on_status
      ∧ (s.reset_statistics).on_error = s.on_error
      ∧ (s.reset_statistics).on_watch_imu = s.on_watch_imu
      ∧ (s.reset_statistics).on_watch_attitude = s.on_watch_attitude
      ∧ (s.reset_statistics).on_watch_activity = s.on_watch_activity := by
  repeat constructor

/-- C4 (amended): `_invoke_callback` catches every handler exception at the
dispatch boundary — it always returns normally, so nothing propagates into
an adapter's read loop — but it only logs the exception; it never routes an
Error record to the `on_error` slot. -/
theorem invoke_callback_catches_but_does_not_surface (cb : Option CallbackResult) :
    ∃ evs, invokeCallback cb = Except.ok evs ∧ SrvEvent.errorDispatched ∉ evs := by
  match cb with
  | none => exact ⟨[], rfl, by simp⟩
  | some .ok => exact ⟨[.callbackInvoked], rfl, by simp⟩
  | some (.raises e) => exact ⟨[.callbackInvoked, .callbackLogged e], rfl, by simp⟩

/-! ## Unary HTTP adapter
(`src/python/arvos/servers/http_server.py`, `HTTPArvosServer`) -/

/-- An HTTP request as the handler sees it.  `utf8Ok` models whether
`body.decode("utf-8")` succeeds on the body bytes; `jsonOk` whether the
decoded text parses as JSON; `recognized` whether the parsed envelope
carries a known `sensorType` discriminator.  The last two stand in for the
JSON parse inside `ArvosClient._handle_json_message` (class absent from
the source tree; modelled from the spec, §4.2/§6). -/
structure HttpRequest where
  method : String
  path : String
  body : List Nat
  utf8Ok : Bool
  jsonOk : Bool
  recognized : Bool
deriving DecidableEq, Repr

/-- What a handler writes back: `_write_json({"ok": True})`,
`_write_json({"status": "ok", "protocol": ...})`, or `send_error`'s page. -/
inductive HttpBody
  | jsonOkTrue
  | jsonHealth (protocol : String)
  | errorPage (msg : String)
deriving DecidableEq, Repr

structure HttpResponse where
  status : Nat
  body : HttpBody
deriving DecidableEq, Repr

/-- `HTTPArvosServer._handle_json_message` (plus, modelled from the spec,
the JSON parse and dispatch of the absent `ArvosClient._handle_json_message`):
an empty body is replaced by `"{}"` (parses, carries no discriminator, so
no record is dispatched); a non-UTF-8 body raises `UnicodeDecodeError`;
malformed JSON raises `json.JSONDecodeError`; well-formed JSON dispatches
one sensor record when the discriminator is recognized, then invokes the
`on_message` callback if registered. -/
def serverHandleJsonMessage (srv : BaseArvosServer) (req : HttpRequest) :
    Except PyExc (List SrvEvent) :=
  let onMsgEvents :=
    match srv.on_message with
    | none => []
    | some _ => invokeCallbackEvents srv.on_message
  if req.body = [] then
    Except.ok onMsgEvents
  else if req.utf8Ok = false then
    Except.error PyExc.unicodeDecodeError
  else if req.jsonOk = false then
    Except.error PyExc.jsonDecodeError
  else
    Except.ok ((if req.recognized then [SrvEvent.sensorDispatched] else []) ++ onMsgEvents)

/-- `HTTPArvosServer._handle_binary_message` (parser part modelled from the
spec: a binary unit always yields a record — with default metadata when no
metadata preceded it — rather than failing), then `on_message` if set. -/
def serverHandleBinaryMessage (srv : BaseArvosServer) : List SrvEvent :=
  SrvEvent.sensorDispatched ::
    (match srv.on_message with
     | none => []
     | some _ => invokeCallbackEvents srv.on_message)

/-- `RequestHandler.do_GET`: connect callback, then `/api/health` →
`200 {"status":"ok","protocol":"HTTP"}`, any other path → 404; disconnect
callback in `finally`. -/
def doGET (req : HttpRequest) : HttpResponse × List SrvEvent :=
  let resp :=
    if req.path = "/api/health" then HttpResponse.mk 200 (.jsonHealth "HTTP")
    else HttpResponse.mk 404 (.errorPage "Not Found")
  (resp, [SrvEvent.connect, SrvEvent.disconnect])

/-- The `try` block of `RequestHandler.do_POST`: `/api/telemetry` routes
the body through `_handle_json_message` (`200 {"ok":true}`, or 400 on
`json.JSONDecodeError`, or 500 on any other exception), `/api/binary`
through `_handle_binary_message` (`200 {"ok":true}`), any other path →
404. -/
def doPOSTBody (srv : BaseArvosServer) (req : HttpRequest) : HttpResponse × List SrvEvent :=
  if req.path = "/api/telemetry" then
    match serverHandleJsonMessage srv req with
    | .ok evs => (HttpResponse.mk 200 .jsonOkTrue, evs)
    | .error .jsonDecodeError => (HttpResponse.mk 400 (.errorPage "Invalid JSON"), [])
    | .error _ => (HttpResponse.mk 500 (.errorPage "Internal Server Error"), [])
  else if req.path = "/api/binary" then
    (HttpResponse.mk 200 .jsonOkTrue, serverHandleBinaryMessage srv)
  else
    (HttpResponse.mk 404 (.errorPage "Not Found"), [])

/-- `RequestHandler.do_POST`: connect callback, the `try` body, disconnect
callback in `finally`. -/
def doPOST (srv : BaseArvosServer) (req : HttpRequest) : HttpResponse × List SrvEvent :=
  ((doPOSTBody srv req).1,
    SrvEvent.connect :: (doPOSTBody srv req).2 ++ [SrvEvent.disconnect])

/-- One request through the handler class.  Only `do_GET` and `do_POST`
are defined on `RequestHandler`; for any other method the base
`BaseHTTPRequestHandler` answers `501 Unsupported method` before any
handler (and hence any callback) runs.  The request path never writes the
statistics fields — `http_server.py` contains no counter update — so the
server state is returned unchanged. -/
def handleOneRequest (srv : BaseArvosServer) (req : HttpRequest) :
    BaseArvosServer × HttpResponse × List SrvEvent :=
  if req.method = "GET" then (srv, doGET req)
  else if req.method = "POST" then (srv, doPOST srv req)
  else (srv, HttpResponse.mk 501 (.errorPage "Unsupported method"), [])

/-- C2 (amended): the unary HTTP surface, per request.  `POST
/api/telemetry` with a UTF-8, well-formed JSON body (or an empty body,
replaced by `"{}"`) → `200 {"ok":true}`; with UTF-8 but malformed JSON →
400; with a non-UTF-8 body → 500.  `POST /api/binary` → `200 {"ok":true}`.
`GET /api/health` → `200 {"status":"ok","protocol":"HTTP"}`.  Unknown
paths under GET/POST → 404.  A method other than GET or POST → 501 (the
stdlib unsupported-method answer), not 404/405. -/
theorem http_unary_surface (srv : BaseArvosServer) (req : HttpRequest) :
    (req.method = "POST" → req.path = "/api/telemetry" → req.utf8Ok = true →
      req.jsonOk = true → (handleOneRequest srv req).2.1 = ⟨200, .jsonOkTrue⟩)
  ∧ (req.method = "POST" → req.path = "/api/telemetry" → req.body = [] →
      (handleOneRequest srv req).2.1 = ⟨200, .jsonOkTrue⟩)
  ∧ (req.method = "POST" → req.path = "/api/telemetry" → req.body ≠ [] →
      req.utf8Ok = true → req.jsonOk = false →
      (handleOneRequest srv req).2.1.status = 400)
  ∧ (req.method = "POST" → req.path = "/api/telemetry" → req.body ≠ [] →
      req.utf8Ok = false → (handleOneRequest srv req).2.1.status = 500)
  ∧ (req.method = "POST" → req.path = "/api/binary" →
      (handleOneRequest srv req).2.1 = ⟨200, .jsonOkTrue⟩)
  ∧ (req.method = "GET" → req.path = "/api/health" →
      (handleOneRequest srv req).2.1 = ⟨200, .jsonHealth "HTTP"⟩)
  ∧ (req.method = "GET" → req.path ≠ "/api/health" →
      (handleOneRequest srv req).2.1.status = 404)
  ∧ (req.method = "POST" → req.path ≠ "/api/telemetry" → req.path ≠ "/api/binary" →
      (handleOneRequest srv req).2.1.status = 404)
  ∧ (req.method ≠ "GET" → req.method ≠ "POST" →
      (handleOneRequest srv req).2.1.status = 501) := by
  refine ⟨?_, ?_, ?_, ?_, ?_, ?_, ?_, ?_, ?_⟩ <;> intro hm hp
  · intro hu hj
    by_cases hb : req.body = [] <;>
      simp [handleOneRequest, doPOST, doPOSTBody, serverHandleJsonMessage, hm, hp, hu, hj, hb]
  · intro hb
    simp [handleOneRequest, doPOST, doPOSTBody, serverHandleJsonMessage, hm, hp, hb]
  · intro hb hu hj
    simp [handleOneRequest, doPOST, doPOSTBody, serverHandleJsonMessage, hm, hp, hb, hu, hj]
  · intro hb hu
    simp [handleOneRequest, doPOST, doPOSTBody, serverHandleJsonMessage, hm, hp, hb, hu]
  · simp [handleOneRequest, doPOST, doPOSTBody, hm, hp]
  · simp [handleOneRequest, doGET, hm, hp]
  · simp [handleOneRequest, doGET, hm, hp]
  · intro hp2
    simp [handleOneRequest, doPOST, doPOSTBody, hm, hp, hp2]
  · simp [handleOneRequest, hm, hp]

/-- Witness for C2: a well-formed telemetry POST (`"{}"` with a recognized
discriminator flag set) gets `200 {"ok":true}`. -/
theorem http_unary_surface_witness :
    (handleOneRequest (BaseArvosServer.init "0.0.0.0" 8080)
        ⟨"POST", "/api/telemetry", [123, 125], true, true, true⟩).2.1
      = ⟨200, .jsonOkTrue⟩ :=
  (http_unary_surface (BaseArvosServer.init "0.0.0.0" 8080)
      ⟨"POST", "/api/telemetry", [123, 125], true, true, true⟩).1 rfl rfl rfl rfl

/-- Counterexample for C2 as stated: `PUT /api/health` answers 501 — not
404/405 — and a telemetry POST whose body is not valid UTF-8 (hence
malformed JSON) answers 500, not 400. -/
theorem http_unary_surface_cex :
    (handleOneRequest (BaseArvosServer.init "0.0.0.0" 8080)
        ⟨"PUT", "/api/health", [], true, true, false⟩).2.1.status = 501
    ∧ (501 : Nat) ≠ 404 ∧ (501 : Nat) ≠ 405
    ∧ (handleOneRequest (BaseArvosServer.init "0.0.0.0" 8080)
        ⟨"POST", "/api/telemetry", [255], false, false, false⟩).2.1.status = 500 := by
  refine ⟨rfl, by decide, by decide, rfl⟩

/-! ## WebSocket (MCAP stream) adapter
(`src/python/arvos/servers/mcap_server.py`) and MQTT adapter
(`src/python/arvos/servers/mqtt_server.py`) -/

/-- The instance attributes assigned by `BaseArvosServer.__init__`. -/
def baseInitAttrs : List String :=
  ["host", "port", "running", "bytes_received", "messages_received",
   "connected_clients", "on_connect", "on_disconnect", "on_message",
   "on_handshake", "on_imu", "on_gps", "on_pose", "on_camera", "on_depth",
   "on_status", "on_error", "on_watch_imu", "on_watch_attitude",
   "on_watch_activity"]

/-- The instance attributes assigned by `MCAPStreamServer.__init__` (via
`super().__init__` plus its own assignments; nothing else in the
repository assigns attributes on this class). -/
def mcapInstanceAttrs : List String :=
  baseInitAttrs ++
    ["output_file", "writer", "mcap_file", "schemas", "channels",
     "_server_task", "_server"]

/-- The instance attributes assigned by `MQTTArvosServer.__init__` (its
`start` re-assigns `client`, already in this list, and nothing else in the
repository assigns attributes on this class). -/
def mqttInstanceAttrs : List String :=
  baseInitAttrs ++ ["client_id", "topic_telemetry", "topic_binary", "client"]

/-- Python attribute lookup `self.<name>`: `AttributeError` when the
instance never had the attribute assigned. -/
def getattrOrRaise (attrs : List String) (name : String) : Except PyExc Unit :=
  if name ∈ attrs then Except.ok () else Except.error (PyExc.attributeError name)

/-- One WebSocket frame: a text frame (with the outcome of `json.loads` on
it) or a binary frame. -/
inductive WsMsg
  | text (bytes : List Nat) (jsonOk : Bool)
  | binary (bytes : List Nat)
deriving DecidableEq, Repr

/-- One iteration of `MCAPStreamServer._handle_client`'s message loop.  A
text frame is first parsed (`json.loads`; on failure the inner `except`
catches `json.JSONDecodeError` and, the message not being `bytes`, drops
it without touching the counters); on success both counters are updated
and the message goes to `self._parser._handle_json_message` — an attribute
lookup on the instance.  A binary frame updates both counters and goes to
`self._parser._handle_binary_message`.  The MCAP-file write is an external
sink and is not modelled.  The third component is the exception escaping
the iteration, which the loop does not catch. -/
def mcapProcessMessage (srv : BaseArvosServer) (m : WsMsg) :
    BaseArvosServer × List SrvEvent × Option PyExc :=
  match m with
  | .text bs jsonOk =>
    if jsonOk then
      let srv' := { srv with messages_received := srv.messages_received + 1,
                             bytes_received := srv.bytes_received + bs.length }
      match getattrOrRaise mcapInstanceAttrs "_parser" with
      | .ok () => (srv', [SrvEvent.sensorDispatched], none)
      | .error e => (srv', [], some e)
    else
      (srv, [], none)
  | .binary bs =>
    let srv' := { srv with messages_received := srv.messages_received + 1,
                           bytes_received := srv.bytes_received + bs.length }
    match getattrOrRaise mcapInstanceAttrs "_parser" with
    | .ok () => (srv', [SrvEvent.sensorDispatched], none)
    | .error e => (srv', [], some e)

/-- The `async for message in websocket` loop of `_handle_client`: an
exception escaping an iteration ends the loop. -/
def mcapLoop (srv : BaseArvosServer) : List WsMsg → BaseArvosServer × List SrvEvent
  | [] => (srv, [])
  | m :: ms =>
    let r := mcapProcessMessage srv m
    match r.2.2 with
    | some _ => (r.1, r.2.1)
    | none =>
      let rs := mcapLoop r.1 ms
      (rs.1, r.2.1 ++ rs.2)

/-- `MCAPStreamServer._handle_client`: connect callback and
`connected_clients += 1` on entry, the message loop, then — in `finally`,
so also when an exception escaped the loop — disconnect callback and
`connected_clients -= 1`. -/
def mcapHandleClient (srv : BaseArvosServer) (msgs : List WsMsg) :
    BaseArvosServer × List SrvEvent :=
  let srv1 := { srv with connected_clients := srv.connected_clients + 1 }
  let r := mcapLoop srv1 msgs
  ({ r.1 with connected_clients := r.1.connected_clients - 1 },
    SrvEvent.connect :: r.2 ++ [SrvEvent.disconnect])

/-- One MQTT message as `_on_message` receives it; `utf8Ok` models whether
`msg.payload.decode("utf-8")` succeeds. -/
structure MqttMsg where
  topic : String
  payload : List Nat
  utf8Ok : Bool
deriving DecidableEq, Repr

/-- `MQTTArvosServer._on_message`: inside `try`, both counters are updated,
then a telemetry-topic payload is decoded as UTF-8 and handed to
`self._parser._handle_json_message`, a binary-topic payload to
`self._parser._handle_binary_message` — both attribute lookups on the
instance.  The surrounding `except Exception` routes any exception to the
`on_error` slot when one is registered.  The third component is the
exception raised inside the `try` (and caught there). -/
def mqttOnMessage (srv : BaseArvosServer) (topicTelemetry topicBinary : String)
    (m : MqttMsg) : BaseArvosServer × List SrvEvent × Option PyExc :=
  let srv' := { srv with messages_received := srv.messages_received + 1,
                         bytes_received := srv.bytes_received + m.payload.length }
  let inner : Except PyExc (List SrvEvent) :=
    if m.topic = topicTelemetry then
      if m.utf8Ok = false then Except.error PyExc.unicodeDecodeError
      else
        match getattrOrRaise mqttInstanceAttrs "_parser" with
        | .ok () => Except.ok [SrvEvent.sensorDispatched]
        | .error e => Except.error e
    else if m.topic = topicBinary then
      match getattrOrRaise mqttInstanceAttrs "_parser" with
      | .ok () => Except.ok [SrvEvent.sensorDispatched]
      | .error e => Except.error e
    else
      Except.ok []
  match inner with
  | .ok evs => (srv', evs, none)
  | .error e =>
    (srv',
      (match srv.on_error with
       | some _ => SrvEvent.errorDispatched :: invokeCallbackEvents srv.on_error
       | none => []),
      some e)

theorem getattr_parser_mcap :
    getattrOrRaise mcapInstanceAttrs "_parser"
      = Except.error (PyExc.attributeError "_parser") := by
  unfold getattrOrRaise
  rw [if_neg (by decide)]

theorem getattr_parser_mqtt :
    getattrOrRaise mqttInstanceAttrs "_parser"
      = Except.error (PyExc.attributeError "_parser") := by
  unfold getattrOrRaise
  rw [if_neg (by decide)]

theorem invokeCallbackEvents_no_session_events (cb : Option CallbackResult) :
    SrvEvent.connect ∉ invokeCallbackEvents cb
      ∧ SrvEvent.disconnect ∉ invokeCallbackEvents cb
      ∧ SrvEvent.sensorDispatched ∉ invokeCallbackEvents cb
      ∧ SrvEvent.errorDispatched ∉ invokeCallbackEvents cb := by
  match cb with
  | none => simp [invokeCallbackEvents, invokeCallback]
  | some .ok => simp [invokeCallbackEvents, invokeCallback, runCallback]
  | some (.raises e) => simp [invokeCallbackEvents, invokeCallback, runCallback]

theorem mqttOnMessage_error_events (srv : BaseArvosServer) :
    SrvEvent.sensorDispatched ∉
      (match srv.on_error with
       | some _ => SrvEvent.errorDispatched :: invokeCallbackEvents srv.on_error
       | none => ([] : List SrvEvent)) := by
  cases hoe : srv.on_error with
  | none => simp
  | some c =>
    simp only [List.mem_cons, not_or]
    refine ⟨by simp, ?_⟩
    exact (invokeCallbackEvents_no_session_events (some c)).2.2.1

theorem onMessageEvents_no_session (cb : Option CallbackResult) :
    SrvEvent.connect ∉
        (match cb with
         | none => ([] : List SrvEvent)
         | some _ => invokeCallbackEvents cb)
      ∧ SrvEvent.disconnect ∉
        (match cb with
         | none => ([] : List SrvEvent)
         | some _ => invokeCallbackEvents cb) := by
  match cb with
  | none => simp
  | some c =>
    exact ⟨(invokeCallbackEvents_no_session_events (some c)).1,
      (invokeCallbackEvents_no_session_events (some c)).2.1⟩

/-- C9: nothing ever assigns `_parser` on the WebSocket (`MCAPStreamServer`)
or MQTT (`MQTTArvosServer`) classes, so on both adapters every telemetry
(JSON-parsable text, UTF-8 payload) and every binary message unit hits an
`AttributeError` at the `self._parser` dispatch step and no record is
decoded or dispatched. -/
theorem parser_never_assigned_dispatch_raises :
    ("_parser" ∉ mcapInstanceAttrs ∧ "_parser" ∉ mqttInstanceAttrs)
    ∧ (∀ (srv : BaseArvosServer) (bs : List Nat),
        (mcapProcessMessage srv (.text bs true)).2.2
            = some (PyExc.attributeError "_parser")
          ∧ SrvEvent.sensorDispatched ∉ (mcapProcessMessage srv (.text bs true)).2.1)
    ∧ (∀ (srv : BaseArvosServer) (bs : List Nat),
        (mcapProcessMessage srv (.binary bs)).2.2
            = some (PyExc.attributeError "_parser")
          ∧ SrvEvent.sensorDispatched ∉ (mcapProcessMessage srv (.binary bs)).2.1)
    ∧ (∀ (srv : BaseArvosServer) (tT tB : String) (m : MqttMsg),
        m.topic = tT → m.utf8Ok = true →
        (mqttOnMessage srv tT tB m).2.2 = some (PyExc.attributeError "_parser")
          ∧ SrvEvent.sensorDispatched ∉ (mqttOnMessage srv tT tB m).2.1)
    ∧ (∀ (srv : BaseArvosServer) (tT tB : String) (m : MqttMsg),
        m.topic ≠ tT → m.topic = tB →
        (mqttOnMessage srv tT tB m).2.2 = some (PyExc.attributeError "_parser")
          ∧ SrvEvent.sensorDispatched ∉ (mqttOnMessage srv tT tB m).2.1) := by
  refine ⟨⟨by decide, by decide⟩, ?_, ?_, ?_, ?_⟩
  · intro srv bs
    simp [mcapProcessMessage, getattr_parser_mcap]
  · intro srv bs
    simp [mcapProcessMessage, getattr_parser_mcap]
  · intro srv tT tB m ht hu
    have hcond : ¬ m.utf8Ok = false := by simp [hu]
    unfold mqttOnMessage
    rw [if_pos ht, if_neg hcond, getattr_parser_mqtt]
    exact ⟨rfl, mqttOnMessage_error_events srv⟩
  · intro srv tT tB m ht hb
    unfold mqttOnMessage
    rw [if_neg ht, if_pos hb, getattr_parser_mqtt]
    exact ⟨rfl, mqttOnMessage_error_events srv⟩

/-- Witness for C9: on a fresh MQTT adapter with the default topics, a
2-byte telemetry message and a 2-byte binary-topic message each get the
`AttributeError` at dispatch. -/
theorem parser_never_assigned_dispatch_raises_witness :
    (mqttOnMessage (BaseArvosServer.init "localhost" 1883)
        "arvos/telemetry" "arvos/binary" ⟨"arvos/telemetry", [1, 2], true⟩).2.2
      = some (PyExc.attributeError "_parser")
    ∧ (mqttOnMessage (BaseArvosServer.init "localhost" 1883)
        "arvos/telemetry" "arvos/binary" ⟨"arvos/binary", [1, 2], true⟩).2.2
      = some (PyExc.attributeError "_parser") :=
  ⟨(parser_never_assigned_dispatch_raises.2.2.2.1
      (BaseArvosServer.init "localhost" 1883) "arvos/telemetry" "arvos/binary"
      ⟨"arvos/telemetry", [1, 2], true⟩ rfl rfl).1,
    (parser_never_assigned_dispatch_raises.2.2.2.2
      (BaseArvosServer.init "localhost" 1883) "arvos/telemetry" "arvos/binary"
      ⟨"arvos/binary", [1, 2], true⟩ (by decide) rfl).1⟩

theorem serverHandleJsonMessage_ok_no_session (srv : BaseArvosServer)
    (req : HttpRequest) (evs : List SrvEvent)
    (h : serverHandleJsonMessage srv req = Except.ok evs) :
    SrvEvent.connect ∉ evs ∧ SrvEvent.disconnect ∉ evs := by
  unfold serverHandleJsonMessage at h
  split_ifs at h with h1 h2 h3 h4
  · simp only [Except.ok.injEq] at h
    subst h
    exact onMessageEvents_no_session srv.on_message
  · simp only [Except.ok.injEq, List.singleton_append] at h
    subst h
    constructor
    · intro hmem
      rcases List.mem_cons.mp hmem with hl | hr
      · exact absurd hl (by simp)
      · exact (onMessageEvents_no_session srv.on_message).1 hr
    · intro hmem
      rcases List.mem_cons.mp hmem with hl | hr
      · exact absurd hl (by simp)
      · exact (onMessageEvents_no_session srv.on_message).2 hr
  · simp only [Except.ok.injEq, List.nil_append] at h
    subst h
    exact onMessageEvents_no_session srv.on_message

theorem doPOSTBody_no_session (srv : BaseArvosServer) (req : HttpRequest) :
    SrvEvent.connect ∉ (doPOSTBody srv req).2
      ∧ SrvEvent.disconnect ∉ (doPOSTBody srv req).2 := by
  unfold doPOSTBody
  split_ifs with h1 h2
  · match hj : serverHandleJsonMessage srv req with
    | .ok evs =>
      simpa using serverHandleJsonMessage_ok_no_session srv req evs hj
    | .error .jsonDecodeError => simp
    | .error .unicodeDecodeError => simp
    | .error (.attributeError a) => simp
  · unfold serverHandleBinaryMessage
    constructor
    · intro hmem
      rcases List.mem_cons.mp hmem with hl | hr
      · exact absurd hl (by simp)
      · exact (onMessageEvents_no_session srv.on_message).1 hr
    · intro hmem
      rcases List.mem_cons.mp hmem with hl | hr
      · exact absurd hl (by simp)
      · exact (onMessageEvents_no_session srv.on_message).2 hr
  · simp

theorem mcapProcessMessage_events (s : BaseArvosServer) (m : WsMsg) :
    (mcapProcessMessage s m).2.1 = []
      ∨ (mcapProcessMessage s m).2.1 = [SrvEvent.sensorDispatched] := by
  cases m with
  | text bs jsonOk =>
    cases jsonOk
    · left; rfl
    · left
      simp [mcapProcessMessage, getattr_parser_mcap]
  | binary bs =>
    left
    simp [mcapProcessMessage, getattr_parser_mcap]

theorem mcapLoop_cons (s : BaseArvosServer) (m : WsMsg) (ms : List WsMsg) :
    mcapLoop s (m :: ms) =
      match (mcapProcessMessage s m).2.2 with
      | some _ => ((mcapProcessMessage s m).1, (mcapProcessMessage s m).2.1)
      | none => ((mcapLoop (mcapProcessMessage s m).1 ms).1,
          (mcapProcessMessage s m).2.1 ++ (mcapLoop (mcapProcessMessage s m).1 ms).2) := rfl

theorem mcapLoop_events_only_sensor (msgs : List WsMsg) :
    ∀ (s : BaseArvosServer), ∀ e ∈ (mcapLoop s msgs).2, e = SrvEvent.sensorDispatched := by
  induction msgs with
  | nil =>
    intro s e he
    simp [mcapLoop] at he
  | cons m ms ih =>
    intro s e he
    rw [mcapLoop_cons] at he
    rcases hx : (mcapProcessMessage s m).2.2 with _ | exc
    · rw [hx] at he
      rcases mcapProcessMessage_events s m with hev | hev <;> rw [hev] at he
      · simp only [List.nil_append] at he
        exact ih (mcapProcessMessage s m).1 e he
      · simp only [List.singleton_append] at he
        rcases List.mem_cons.mp he with hl | hr
        · exact hl
        · exact ih (mcapProcessMessage s m).1 e hr
    · rw [hx] at he
      rcases mcapProcessMessage_events s m with hev | hev <;> rw [hev] at he
      · exact absurd he (by simp)
      · simpa using he

/-- C7: on the unary HTTP adapter every request handled by `do_GET` /
`do_POST`, and on the WebSocket adapter every client connection, produces
its connect callback exactly once, before any other dispatch activity, and
its disconnect callback exactly once, after all of it. -/
theorem connect_disconnect_bracket (srv : BaseArvosServer) (req : HttpRequest)
    (msgs : List WsMsg) :
    (req.method = "GET" ∨ req.method = "POST" →
      ∃ mids, (handleOneRequest srv req).2.2
          = SrvEvent.connect :: mids ++ [SrvEvent.disconnect]
        ∧ SrvEvent.connect ∉ mids ∧ SrvEvent.disconnect ∉ mids)
    ∧ (∃ mids, (mcapHandleClient srv msgs).2
          = SrvEvent.connect :: mids ++ [SrvEvent.disconnect]
        ∧ SrvEvent.connect ∉ mids ∧ SrvEvent.disconnect ∉ mids) := by
  constructor
  · rintro (hm | hm)
    · refine ⟨[], ?_, by simp, by simp⟩
      simp [handleOneRequest, doGET, hm]
    · refine ⟨(doPOSTBody srv req).2, ?_, (doPOSTBody_no_session srv req).1,
        (doPOSTBody_no_session srv req).2⟩
      simp [handleOneRequest, doPOST, hm]
  · refine ⟨(mcapLoop { srv with connected_clients := srv.connected_clients + 1 } msgs).2,
      rfl, ?_, ?_⟩
    · intro hmem
      have := mcapLoop_events_only_sensor msgs _ _ hmem
      simp at this
    · intro hmem
      have := mcapLoop_events_only_sensor msgs _ _ hmem
      simp at this

/-- Witness for C7: a health-check GET is bracketed by exactly one connect
and one disconnect. -/
theorem connect_disconnect_bracket_witness :
    ∃ mids, (handleOneRequest (BaseArvosServer.init "0.0.0.0" 8080)
        ⟨"GET", "/api/health", [], true, true, true⟩).2.2
      = SrvEvent.connect :: mids ++ [SrvEvent.disconnect]
      ∧ SrvEvent.connect ∉ mids ∧ SrvEvent.disconnect ∉ mids :=
  (connect_disconnect_bracket (BaseArvosServer.init "0.0.0.0" 8080)
      ⟨"GET", "/api/health", [], true, true, true⟩ []).1 (Or.inl rfl)

/-- C3 (amended): both counters are monotone non-decreasing.  The
WebSocket adapter updates them by exactly one message / its byte length
for each JSON-parsable text unit and each binary unit, but leaves them
untouched for a malformed text unit; the HTTP adapter's request path
never updates them at all.  A malformed (UTF-8) JSON telemetry POST
returns 400 and dispatches no sensor-kind handler. -/
theorem counters_per_unit (srv : BaseArvosServer) (m : WsMsg) (req : HttpRequest) :
    (srv.messages_received ≤ (mcapProcessMessage srv m).1.messages_received
      ∧ srv.bytes_received ≤ (mcapProcessMessage srv m).1.bytes_received)
    ∧ (∀ bs, m = WsMsg.text bs true →
        (mcapProcessMessage srv m).1.messages_received = srv.messages_received + 1
          ∧ (mcapProcessMessage srv m).1.bytes_received = srv.bytes_received + bs.length)
    ∧ (∀ bs, m = WsMsg.text bs false → (mcapProcessMessage srv m).1 = srv)
    ∧ (∀ bs, m = WsMsg.binary bs →
        (mcapProcessMessage srv m).1.messages_received = srv.messages_received + 1
          ∧ (mcapProcessMessage srv m).1.bytes_received = srv.bytes_received + bs.length)
    ∧ ((handleOneRequest srv req).1 = srv)
    ∧ (req.method = "POST" → req.path = "/api/telemetry" → req.body ≠ [] →
        req.utf8Ok = true → req.jsonOk = false →
        (handleOneRequest srv req).2.1.status = 400
          ∧ SrvEvent.sensorDispatched ∉ (handleOneRequest srv req).2.2) := by
  refine ⟨?_, ?_, ?_, ?_, ?_, ?_⟩
  · match m with
    | .text bs true => simp [mcapProcessMessage, getattr_parser_mcap]
    | .text bs false => simp [mcapProcessMessage]
    | .binary bs => simp [mcapProcessMessage, getattr_parser_mcap]
  · rintro bs rfl
    simp [mcapProcessMessage, getattr_parser_mcap]
  · rintro bs rfl
    simp [mcapProcessMessage]
  · rintro bs rfl
    simp [mcapProcessMessage, getattr_parser_mcap]
  · unfold handleOneRequest
    split_ifs <;> rfl
  · intro hm hp hb hu hj
    simp [handleOneRequest, doPOST, doPOSTBody, serverHandleJsonMessage, hm, hp, hb, hu, hj]

/-- Witness for C3 (amended): a parsable 2-byte text unit bumps
`messages_received` from 0 to 1 on the WebSocket adapter. -/
theorem counters_per_unit_witness :
    (mcapProcessMessage (BaseArvosServer.init "0.0.0.0" 17500)
        (WsMsg.text [123, 125] true)).1.messages_received
      = (BaseArvosServer.init "0.0.0.0" 17500).messages_received + 1 :=
  ((counters_per_unit (BaseArvosServer.init "0.0.0.0" 17500)
      (WsMsg.text [123, 125] true)
      ⟨"GET", "/", [], true, true, true⟩).2.1 [123, 125] rfl).1

/-- Counterexample for C3 as stated: a malformed text unit on the
WebSocket adapter leaves `messages_received` at 0 (the claim demands an
increment of exactly 1), and a malformed telemetry POST on the HTTP
adapter returns 400 yet also leaves `messages_received` at 0. -/
theorem counters_per_unit_cex :
    (mcapProcessMessage (BaseArvosServer.init "0.0.0.0" 17500)
        (WsMsg.text [110, 111, 116] false)).1.messages_received = 0
    ∧ (handleOneRequest (BaseArvosServer.init "0.0.0.0" 8080)
        ⟨"POST", "/api/telemetry", [110, 111, 116], true, false, false⟩).1.messages_received = 0
    ∧ (handleOneRequest (BaseArvosServer.init "0.0.0.0" 8080)
        ⟨"POST", "/api/telemetry", [110, 111, 116], true, false, false⟩).2.1.status = 400
    ∧ (0 : Nat) ≠ 0 + 1 := by
  refine ⟨rfl, rfl, rfl, by decide⟩

/-- Counterexample for C4 as stated: an HTTP server whose `on_message`
handler raises and whose `on_error` slot is registered — the exception is
caught and logged, the request completes with 200, but the error handler
slot is never invoked (no Error record is surfaced). -/
theorem handler_exception_not_surfaced_cex :
    (handleOneRequest
        { BaseArvosServer.init "0.0.0.0" 8080 with
            on_message := some (.raises "boom"), on_error := some .ok }
        ⟨"POST", "/api/telemetry", [123, 125], true, true, true⟩).2.2
      = [SrvEvent.connect, SrvEvent.sensorDispatched, SrvEvent.callbackInvoked,
          SrvEvent.callbackLogged "boom", SrvEvent.disconnect]
    ∧ SrvEvent.errorDispatched
        ∉ (handleOneRequest
            { BaseArvosServer.init "0.0.0.0" 8080 with
                on_message := some (.raises "boom"), on_error := some .ok }
            ⟨"POST", "/api/telemetry", [123, 125], true, true, true⟩).2.2
    ∧ (handleOneRequest
        { BaseArvosServer.init "0.0.0.0" 8080 with
            on_message := some (.raises "boom"), on_error := some .ok }
        ⟨"POST", "/api/telemetry", [123, 125], true, true, true⟩).2.1
      = ⟨200, .jsonOkTrue⟩ := by
  refine ⟨rfl, by decide, rfl⟩

/-! ## Adapter `stop()` (C8).  Fields holding externally-managed objects
(`_httpd`, `_serve_task`, `client`, `writer`, `_server`) are modelled by
their presence (`None`-ness); the guarded external calls (`shutdown`,
`server_close`, `cancel`, `loop_stop`, `disconnect`, `close`, `finish`)
run only behind the `if` guards shown in the source and do not change
these fields unless the source reassigns them. -/

/-- `HTTPArvosServer.__init__`: `_loop`, `_httpd`, `_serve_task` all
`None`. -/
structure HTTPArvosServer where
  base : BaseArvosServer
  loopSet : Bool
  httpd : Bool
  serveTask : Bool
deriving DecidableEq, Repr

def HTTPArvosServer.init (host : String) (port : Nat) : HTTPArvosServer where
  base := BaseArvosServer.init host port
  loopSet := false
  httpd := false
  serveTask := false

/-- `HTTPArvosServer.stop`: `running = False`; if `_httpd` is set, shut it
down, close it and clear it; if `_serve_task` is set, cancel it (with
`CancelledError` suppressed) and clear it. -/
def HTTPArvosServer.stop (s : HTTPArvosServer) : HTTPArvosServer where
  base := { s.base with running := false }
  loopSet := s.loopSet
  httpd := if s.httpd then false else s.httpd
  serveTask := if s.serveTask then false else s.serveTask

/-- `MQTTArvosServer.__init__`: topics and client id set, `client = None`. -/
structure MQTTArvosServer where
  base : BaseArvosServer
  client_id : String
  topic_telemetry : String
  topic_binary : String
  client : Bool
deriving DecidableEq, Repr

def MQTTArvosServer.init (host : String) (port : Nat)
    (cid tT tB : String) : MQTTArvosServer where
  base := BaseArvosServer.init host port
  client_id := cid
  topic_telemetry := tT
  topic_binary := tB
  client := false

/-- `MQTTArvosServer.stop`: `running = False`; if a client is set,
`loop_stop()` and `disconnect()` it (the field itself is not cleared). -/
def MQTTArvosServer.stop (s : MQTTArvosServer) : MQTTArvosServer :=
  { s with base := { s.base with running := false } }

/-- `MCAPStreamServer.__init__`: writer, file path and server handle all
unset. -/
structure MCAPStreamServer where
  base : BaseArvosServer
  output_file : String
  writerSet : Bool
  mcapFileSet : Bool
  serverTaskSet : Bool
  serverSet : Bool
deriving DecidableEq, Repr

def MCAPStreamServer.init (host : String) (port : Nat)
    (out : String) : MCAPStreamServer where
  base := BaseArvosServer.init host port
  output_file := out
  writerSet := false
  mcapFileSet := false
  serverTaskSet := false
  serverSet := false

/-- `MCAPStreamServer.stop`: `running = False`; if the websockets server
is set, close it and await closure; if the writer is set, finish it and
print the summary (no field is cleared). -/
def MCAPStreamServer.stop (s : MCAPStreamServer) : MCAPStreamServer :=
  { s with base := { s.base with running := false } }

/-- `GRPCArvosServer.__init__`: `_server` and `_servicer` unset. -/
structure GRPCArvosServer where
  base : BaseArvosServer
  serverSet : Bool
  servicerSet : Bool
deriving DecidableEq, Repr

def GRPCArvosServer.init (host : String) (port : Nat) : GRPCArvosServer where
  base := BaseArvosServer.init host port
  serverSet := false
  servicerSet := false

/-- `GRPCArvosServer.stop`: `running = False`; if the server is set, stop
it with a grace period. -/
def GRPCArvosServer.stop (s : GRPCArvosServer) : GRPCArvosServer :=
  { s with base := { s.base with running := false } }

/-- `MCAPHTTPServer.__init__`: aiohttp app created; writer, file path,
runner and site all unset. -/
structure MCAPHTTPServer where
  base : BaseArvosServer
  output_file : String
  writerSet : Bool
  mcapFileSet : Bool
  runnerSet : Bool
  siteSet : Bool
deriving DecidableEq, Repr

def MCAPHTTPServer.init (host : String) (port : Nat) (out : String) : MCAPHTTPServer where
  base := BaseArvosServer.init host port
  output_file := out
  writerSet := false
  mcapFileSet := false
  runnerSet := false
  siteSet := false

/-- `MCAPHTTPServer.stop`: `running = False`; stop the site, clean up the
runner and finish the writer, each only if set (no field is cleared). -/
def MCAPHTTPServer.stop (s : MCAPHTTPServer) : MCAPHTTPServer :=
  { s with base := { s.base with running := false } }

/-- `QUICArvosServer.__init__`: certificate paths set, `_server` and
`_handler` unset. -/
structure QUICArvosServer where
  base : BaseArvosServer
  certfile : String
  keyfile : String
  serverSet : Bool
  handlerSet : Bool
deriving DecidableEq, Repr

def QUICArvosServer.init (host : String) (port : Nat)
    (cert key : String) : QUICArvosServer where
  base := BaseArvosServer.init host port
  certfile := cert
  keyfile := key
  serverSet := false
  handlerSet := false

/-- `QUICArvosServer.stop`: `running = False`; the `if self._server`
branch is a `pass`. -/
def QUICArvosServer.stop (s : QUICArvosServer) : QUICArvosServer :=
  { s with base := { s.base with running := false } }

/-- C8: `stop()` on a never-started adapter, and a second `stop()` right
after, return normally with `connected_clients = 0` on every adapter
(HTTP, MQTT, MCAP-stream, gRPC, MCAP-HTTP, QUIC); on the HTTP adapter
`stop` is moreover idempotent from any state and never touches
`connected_clients`. -/
theorem stop_idempotent_connected_zero (host : String) (port : Nat)
    (cid tT tB out cert key : String) (s : HTTPArvosServer) :
    (s.stop.stop = s.stop
      ∧ s.stop.base.connected_clients = s.base.connected_clients)
    ∧ ((HTTPArvosServer.init host port).stop.base.connected_clients = 0
        ∧ (HTTPArvosServer.init host port).stop.stop.base.connected_clients = 0
        ∧ (HTTPArvosServer.init host port).stop.base.running = false)
    ∧ ((MQTTArvosServer.init host port cid tT tB).stop.base.connected_clients = 0
        ∧ (MQTTArvosServer.init host port cid tT tB).stop.stop.base.connected_clients = 0)
    ∧ ((MCAPStreamServer.init host port out).stop.base.connected_clients = 0
        ∧ (MCAPStreamServer.init host port out).stop.stop.base.connected_clients = 0)
    ∧ ((GRPCArvosServer.init host port).stop.base.connected_clients = 0
        ∧ (GRPCArvosServer.init host port).stop.stop.base.connected_clients = 0)
    ∧ ((MCAPHTTPServer.init host port out).stop.base.connected_clients = 0
        ∧ (MCAPHTTPServer.init host port out).stop.stop.base.connected_clients = 0)
    ∧ ((QUICArvosServer.init host port cert key).stop.base.connected_clients = 0
        ∧ (QUICArvosServer.init host port cert key).stop.stop.base.connected_clients = 0) := by
  refine ⟨⟨?_, rfl⟩, ⟨rfl, rfl, rfl⟩, ⟨rfl, rfl⟩, ⟨rfl, rfl⟩, ⟨rfl, rfl⟩, ⟨rfl, rfl⟩, ⟨rfl, rfl⟩⟩
  cases s with
  | mk b l h t => cases h <;> cases t <;> rfl

/-! ## gRPC protobuf conversion
(`src/python/arvos/servers/grpc_server.py`, `SensorStreamServicer._protobuf_to_dict`).
Protobuf submessage presence (`HasField`) is an `Option`; numeric values
are `Rat`. -/

structure Vec3 where
  x : Rat
  y : Rat
  z : Rat
deriving DecidableEq, Repr

structure Vec4 where
  x : Rat
  y : Rat
  z : Rat
  w : Rat
deriving DecidableEq, Repr

structure IMUData where
  angular_velocity : Option Vec3
  linear_acceleration : Option Vec3
  gravity : Option Vec3
deriving DecidableEq, Repr

structure GPSData where
  latitude : Rat
  longitude : Rat
  altitude : Rat
  horizontal_accuracy : Rat
  vertical_accuracy : Rat
  speed : Rat
  course : Rat
deriving DecidableEq, Repr

structure PoseData where
  position : Option Vec3
  orientation : Option Vec4
  tracking_state : String
deriving DecidableEq, Repr

structure CameraMetadata where
  width : Nat
  height : Nat
  format : String
  compressed_size : Nat
deriving DecidableEq, Repr

structure DepthMetadata where
  point_count : Nat
  min_depth : Rat
  max_depth : Rat
  format : String
  data_size : Nat
deriving DecidableEq, Repr

structure Capabilities where
  has_lidar_p : Bool
  has_arkit_p : Bool
  has_gps_p : Bool
  has_imu_p : Bool
  has_watch_p : Bool
  supported_modes : List String
deriving DecidableEq, Repr

structure HandshakeData where
  device_name : String
  device_model : String
  os_version : String
  app_version : String
  capabilities : Option Capabilities
deriving DecidableEq, Repr

structure StatusData where
  status : String
  message : String
  session_id : String
deriving DecidableEq, Repr

structure ErrorData where
  error : String
  details : String
deriving DecidableEq, Repr

/-- The `oneof` payload of a `SensorMessage`. -/
inductive SensorOneof
  | imuField (d : IMUData)
  | gpsField (d : GPSData)
  | poseField (d : PoseData)
  | cameraMetadataField (d : CameraMetadata)
  | depthMetadataField (d : DepthMetadata)
  | handshakeField (d : HandshakeData)
  | statusField (d : StatusData)
  | errorField (d : ErrorData)
  | unset
deriving DecidableEq, Repr

structure SensorMessagePb where
  timestamp_ns : Nat
  payload : SensorOneof
  binary_data : List Nat
deriving DecidableEq, Repr

/-- The capabilities sub-dict the conversion builds (keys renamed). -/
structure CapabilitiesJson where
  hasLidar : Bool
  hasArkit : Bool
  hasGps : Bool
  hasImu : Bool
  hasWatch : Bool
  supportedModes : List String
deriving DecidableEq, Repr

/-- A value of the produced Python dict. -/
inductive JsonVal
  | num (q : Rat)
  | str (s : String)
  | arrNum (xs : List Rat)
  | bytesVal (bs : List Nat)
  | capsVal (c : CapabilitiesJson)
deriving DecidableEq, Repr

/-- `result[k] = v` on a Python dict kept as an insertion-ordered
association list: overwrite in place, else append. -/
def dictSet : List (String × JsonVal) → String → JsonVal → List (String × JsonVal)
  | [], k, v => [(k, v)]
  | (k', v') :: rest, k, v =>
    if k' = k then (k, v) :: rest else (k', v') :: dictSet rest k v

/-- `SensorStreamServicer._protobuf_to_dict`: start from
`{"timestampNs": ..., "sensorType": "unknown"}` and fill per the `oneof`
branch; absent IMU submessages are replaced by numeric defaults
(`[0,0,0]`, gravity `[0,0,-9.81]`), absent pose submessages and absent
handshake capabilities are left out of the dict. -/
def protobufToDict (msg : SensorMessagePb) : List (String × JsonVal) :=
  let result : List (String × JsonVal) :=
    [("timestampNs", .num msg.timestamp_ns), ("sensorType", .str "unknown")]
  match msg.payload with
  | .imuField imu =>
    let r := dictSet result "sensorType" (.str "imu")
    let r := dictSet r "angularVelocity"
      (.arrNum (match imu.angular_velocity with
        | some v => [v.x, v.y, v.z]
        | none => [0, 0, 0]))
    let r := dictSet r "linearAcceleration"
      (.arrNum (match imu.linear_acceleration with
        | some v => [v.x, v.y, v.z]
        | none => [0, 0, 0]))
    dictSet r "gravity"
      (.arrNum (match imu.gravity with
        | some v => [v.x, v.y, v.z]
        | none => [0, 0, -981/100]))
  | .gpsField g =>
    let r := dictSet result "sensorType" (.str "gps")
    let r := dictSet r "latitude" (.num g.latitude)
    let r := dictSet r "longitude" (.num g.longitude)
    let r := dictSet r "altitude" (.num g.altitude)
    let r := dictSet r "horizontalAccuracy" (.num g.horizontal_accuracy)
    let r := dictSet r "verticalAccuracy" (.num g.vertical_accuracy)
    let r := dictSet r "speed" (.num g.speed)
    dictSet r "course" (.num g.course)
  | .poseField p =>
    let r := dictSet result "sensorType" (.str "pose")
    let r :=
      match p.position with
      | some v => dictSet r "position" (.arrNum [v.x, v.y, v.z])
      | none => r
    let r :=
      match p.orientation with
      | some q => dictSet r "orientation" (.arrNum [q.x, q.y, q.z, q.w])
      | none => r
    dictSet r "trackingState" (.str p.tracking_state)
  | .cameraMetadataField mt =>
    let r := dictSet result "sensorType" (.str "camera")
    let r := dictSet r "width" (.num mt.width)
    let r := dictSet r "height" (.num mt.height)
    let r := dictSet r "format" (.str mt.format)
    let r := dictSet r "compressedSize" (.num mt.compressed_size)
    if msg.binary_data = [] then r else dictSet r "data" (.bytesVal msg.binary_data)
  | .depthMetadataField mt =>
    let r := dictSet result "sensorType" (.str "depth")
    let r := dictSet r "pointCount" (.num mt.point_count)
    let r := dictSet r "minDepth" (.num mt.min_depth)
    let r := dictSet r "maxDepth" (.num mt.max_depth)
    let r := dictSet r "format" (.str mt.format)
    let r := dictSet r "dataSize" (.num mt.data_size)
    if msg.binary_data = [] then r else dictSet r "data" (.bytesVal msg.binary_data)
  | .handshakeField hs =>
    let r := dictSet result "sensorType" (.str "handshake")
    let r := dictSet r "deviceName" (.str hs.device_name)
    let r := dictSet r "deviceModel" (.str hs.device_model)
    let r := dictSet r "osVersion" (.str hs.os_version)
    let r := dictSet r "appVersion" (.str hs.app_version)
    match hs.capabilities with
    | some caps =>
      dictSet r "capabilities"
        (.capsVal ⟨caps.has_lidar_p, caps.has_arkit_p, caps.has_gps_p,
          caps.has_imu_p, caps.has_watch_p, caps.supported_modes⟩)
    | none => r
  | .statusField st =>
    let r := dictSet result "sensorType" (.str "status")
    let r := dictSet r "status" (.str st.status)
    let r := dictSet r "message" (.str st.message)
    dictSet r "sessionId" (.str st.session_id)
  | .errorField er =>
    let r := dictSet result "sensorType" (.str "error")
    let r := dictSet r "error" (.str er.error)
    dictSet r "details" (.str er.details)
  | .unset => result

/-- C6 (amended): in the gRPC conversion, absent pose submessages
(`position`, `orientation`) and absent handshake `capabilities` are
omitted from the result, but absent IMU submessages are substituted with
numeric defaults — `[0,0,0]` for angular velocity and linear
acceleration, `[0,0,-9.81]` for gravity — present in the result exactly
like measured values. -/
theorem optional_fields_absent_or_defaulted (ts : Nat) (bd : List Nat)
    (d : IMUData) (p : PoseData) (hs : HandshakeData) :
    (d.angular_velocity = none →
      (protobufToDict ⟨ts, .imuField d, bd⟩).lookup "angularVelocity"
        = some (.arrNum [0, 0, 0]))
    ∧ (d.linear_acceleration = none →
      (protobufToDict ⟨ts, .imuField d, bd⟩).lookup "linearAcceleration"
        = some (.arrNum [0, 0, 0]))
    ∧ (d.gravity = none →
      (protobufToDict ⟨ts, .imuField d, bd⟩).lookup "gravity"
        = some (.arrNum [0, 0, -981/100]))
    ∧ (p.position = none →
      (protobufToDict ⟨ts, .poseField p, bd⟩).lookup "position" = none)
    ∧ (p.orientation = none →
      (protobufToDict ⟨ts, .poseField p, bd⟩).lookup "orientation" = none)
    ∧ (hs.capabilities = none →
      (protobufToDict ⟨ts, .handshakeField hs, bd⟩).lookup "capabilities" = none) := by
  obtain ⟨av, la, g⟩ := d
  obtain ⟨pos, ori, trk⟩ := p
  obtain ⟨dn, dm, ov, appv, caps⟩ := hs
  refine ⟨?_, ?_, ?_, ?_, ?_, ?_⟩ <;> intro h <;> subst h
  · simp [protobufToDict, dictSet, List.lookup]
  · simp [protobufToDict, dictSet, List.lookup]
  · simp [protobufToDict, dictSet, List.lookup]
  · cases ori <;> simp [protobufToDict, dictSet, List.lookup]
  · cases pos <;> simp [protobufToDict, dictSet, List.lookup]
  · simp [protobufToDict, dictSet, List.lookup]

/-- Witness for C6 (amended): an IMU message with every submessage absent
still carries `angularVelocity = [0,0,0]`, while a pose message with an
absent position carries no `position` key. -/
theorem optional_fields_absent_or_defaulted_witness :
    (protobufToDict ⟨5, .imuField ⟨none, none, none⟩, []⟩).lookup "angularVelocity"
      = some (.arrNum [0, 0, 0])
    ∧ (protobufToDict ⟨5, .poseField ⟨none, none, "normal"⟩, []⟩).lookup "position"
      = none :=
  ⟨(optional_fields_absent_or_defaulted 5 [] ⟨none, none, none⟩
      ⟨none, none, "normal"⟩ ⟨"", "", "", "", none⟩).1 rfl,
    (optional_fields_absent_or_defaulted 5 [] ⟨none, none, none⟩
      ⟨none, none, "normal"⟩ ⟨"", "", "", "", none⟩).2.2.2.1 rfl⟩

/-- Counterexample for C6 as stated: an IMU message without angular
velocity decodes to the very same dict as one measuring exactly `(0,0,0)`,
and one without gravity to the same dict as one measuring
`(0,0,-9.81)` — absent fields are numerically defaulted, not represented
as absent. -/
theorem optional_fields_cex :
    protobufToDict ⟨1, .imuField ⟨none, some ⟨1, 2, 3⟩, some ⟨4, 5, 6⟩⟩, []⟩
      = protobufToDict ⟨1, .imuField ⟨some ⟨0, 0, 0⟩, some ⟨1, 2, 3⟩, some ⟨4, 5, 6⟩⟩, []⟩
    ∧ protobufToDict ⟨1, .imuField ⟨some ⟨1, 2, 3⟩, some ⟨4, 5, 6⟩, none⟩, []⟩
      = protobufToDict
          ⟨1, .imuField ⟨some ⟨1, 2, 3⟩, some ⟨4, 5, 6⟩, some ⟨0, 0, -981/100⟩⟩, []⟩ := by
  exact ⟨rfl, rfl⟩

end Arvos
